import Mathlib

/-!
Shallow embedding of the nice-rack inventory manager.

Two source variants are embedded:
* namespace InvManager — src/inv_manager.py
* namespace Mtg       — src/mtg_inventory_system.py

Python integers are modelled as Int.  SQLAlchemy column defaults are modelled
as structure-field defaults: in both sources every freshly constructed entity
is flushed (which materialises the Python-side column defaults onto the
instance) before any of its counter fields is read, so giving the fields
their default values at construction time is behaviour-preserving.
Python-level dynamic failures that the sources actually hit
(AttributeError, TypeError, ValueError, UnmappedInstanceError) are modelled
with the PyError type and Except.
-/

set_option autoImplicit false

universe u

/-- Runtime errors raised by the Python sources. -/
inductive PyError where
  | attributeError (msg : String)
  | typeError (msg : String)
  | valueError (msg : String)
  | unmappedInstanceError (msg : String)
  deriving DecidableEq, Repr

/-- In-place update of the element at index i of a list, used to model a
mutation of one entity reached through a session query. -/
def listModify {α : Type u} (l : List α) (i : Nat) (f : α → α) : List α :=
  match l, i with
  | [], _ => []
  | x :: xs, 0 => f x :: xs
  | x :: xs, n + 1 => x :: listModify xs n f

/-- Strict lexicographic order on (row index, section index) pairs: the order
in which the row/section scan of the placement search visits sections. -/
def lexLt (a b : Nat × Nat) : Prop :=
  a.1 < b.1 ∨ (a.1 = b.1 ∧ a.2 < b.2)

namespace InvManager

/-- Card row of inv_manager.py (columns tcg_id, card_name, set_name,
quantity, capacity).  Note: this variant's per-record ceiling column is
named capacity; the class defines no max_quantity column. -/
structure Card where
  tcg_id : Int
  card_name : String
  set_name : String
  quantity : Int := 0
  capacity : Int := 12
  deriving DecidableEq, Repr

/-- Section row of inv_manager.py: the card_count and current_quantity
counters, the max_cards ceiling (column default 12) and the list of Card
children (the cards relationship).  Entity identity is its position in the
parent's list (ids are autoincremented in creation order). -/
structure Section where
  card_count : Int := 0
  max_cards : Int := 12
  current_quantity : Int := 0
  cards : List Card := []
  deriving DecidableEq, Repr

/-- Row of inv_manager.py: section_count counter, max_sections ceiling
(default 10) and the sections relationship. -/
structure Row where
  section_count : Int := 0
  max_sections : Int := 10
  sections : List Section := []
  deriving DecidableEq, Repr

/-- Box of inv_manager.py: row_count counter, max_rows ceiling (default 5)
and the rows relationship. -/
structure Box where
  row_count : Int := 0
  max_rows : Int := 5
  rows : List Row := []
  deriving DecidableEq, Repr

/-- The session state: all Box rows in creation (primary-key) order. -/
abbrev State := List Box

/-- Section.can_add_card (inv_manager.py:86-87). -/
def Section.can_add_card (s : Section) (quantity : Int) : Bool :=
  decide (s.card_count + quantity ≤ s.max_cards)

/-- Section.add_card (inv_manager.py:89-94): on success the card is appended
and card_count grows by the card's quantity. -/
def Section.add_card (s : Section) (c : Card) : Section × Bool :=
  if s.can_add_card c.quantity then
    ({ s with cards := s.cards ++ [c], card_count := s.card_count + c.quantity }, true)
  else
    (s, false)

/-- Row.add_section (inv_manager.py:132-137). -/
def Row.add_section (r : Row) (s : Section) : Row × Bool :=
  if r.section_count < r.max_sections then
    ({ r with sections := r.sections ++ [s], section_count := r.section_count + 1 }, true)
  else
    (r, false)

/-- Box.add_row (inv_manager.py:156-161). -/
def Box.add_row (b : Box) (r : Row) : Box × Bool :=
  if b.row_count < b.max_rows then
    ({ b with rows := b.rows ++ [r], row_count := b.row_count + 1 }, true)
  else
    (b, false)

/-- A Row as completed inside Box.__init__ (inv_manager.py:163-173): ten
fresh sections added through Row.add_section.  (The source appends the row
to the box first and then fills it through the shared object; the row's
final state is the same.) -/
def mkRow : Row :=
  (List.range 10).foldl (fun r _ => (r.add_section {}).1) {}

/-- Box() (inv_manager.py:163-173): __init__ starts from row_count 0,
max_rows 5 and eagerly adds five ten-section rows through add_row. -/
def mkBox : Box :=
  (List.range 5).foldl (fun b _ => (b.add_row mkRow).1) {}

/-- Index of the first section passing can_add_card 12, mirroring the
hard-coded `section.can_add_card(12)` test of the section scan in
locate_insertion_point (inv_manager.py:217). -/
def findOpenIdx : List Section → Option Nat
  | [] => none
  | s :: ss =>
    if s.can_add_card 12 then some 0
    else
      match findOpenIdx ss with
      | some j => some (j + 1)
      | none => none

/-- Row-major position of the first section passing can_add_card 12: the
`for row in last_box.rows: for section in row.sections:` scan of
locate_insertion_point (inv_manager.py:212-223). -/
def findPath : List Row → Option (Nat × Nat)
  | [] => none
  | r :: rs =>
    match findOpenIdx r.sections with
    | some j => some (0, j)
    | none =>
      match findPath rs with
      | some (i, j) => some (i + 1, j)
      | none => none

/-- Resolve a (box, row, section) index path in a state. -/
def getSection (st : State) (p : Nat × Nat × Nat) : Option Section :=
  (st[p.1]?.bind fun b => b.rows[p.2.1]?).bind fun r => r.sections[p.2.2]?

/-- Apply a mutation to the section a (box, row, section) path points at. -/
def updateSection (st : State) (p : Nat × Nat × Nat) (f : Section → Section) : State :=
  listModify st p.1 fun b =>
    { b with rows := listModify b.rows p.2.1 fun r =>
        { r with sections := listModify r.sections p.2.2 f } }

/-- The scan-or-grow step of locate_insertion_point given the state st1 and
the last box: scan the last box's rows/sections for the first section
passing can_add_card 12; if none passes, append a fresh eagerly-filled Box
(the five extra add_row calls of inv_manager.py:226-231 all return False,
since Box.__init__ already filled the box to max_rows, so the new box is
exactly mkBox) and answer its first section. -/
def locateFrom (st1 : State) (b : Box) : State × (Nat × Nat × Nat) :=
  match findPath b.rows with
  | some (i, j) => (st1, (st1.length - 1, i, j))
  | none => (st1 ++ [mkBox], (st1.length, 0, 0))

/-- locate_insertion_point (inv_manager.py:200-237).  The session query
takes the most recently created box only (order_by Box.id desc, first); if
no box exists a new eagerly-filled Box is added first.  The returned index
path points into the returned state. -/
def locate_insertion_point (st : State) : State × (Nat × Nat × Nat) :=
  let st1 := if st.isEmpty then st ++ [mkBox] else st
  locateFrom st1 (st1.getLast?.getD mkBox)

/-- The body of insert_card after locate_insertion_point returned the
section at path p (the `if section:` branch, inv_manager.py:260-285): build
the Card, try Section.add_card; on success line 270 additionally bumps the
section's current_quantity by the inserted quantity.  On failure nothing
else changes (only a box possibly created inside locate_insertion_point
remains). -/
def insertAt (st1 : State) (p : Nat × Nat × Nat) (c : Card) : State × Bool :=
  (getSection st1 p).elim (st1, false) fun sec =>
    if (sec.add_card c).2 then
      (updateSection st1 p fun _ =>
        { (sec.add_card c).1 with
            current_quantity := (sec.add_card c).1.current_quantity + c.quantity }, true)
    else
      (st1, false)

/-- insert_card (inv_manager.py:251-287). -/
def insert_card (st : State) (tcg_id : Int) (card_name set_name : String)
    (quantity : Int) : State × Bool :=
  insertAt (locate_insertion_point st).1 (locate_insertion_point st).2
    { tcg_id := tcg_id, card_name := card_name, set_name := set_name,
      quantity := quantity }

/-- Summed card quantity stored in a section (the leaf contribution). -/
def Section.qty (s : Section) : Int :=
  (s.cards.map Card.quantity).sum

/-- Summed card quantity stored under a row. -/
def Row.qty (r : Row) : Int :=
  (r.sections.map Section.qty).sum

/-- Summed card quantity stored under a box. -/
def Box.qty (b : Box) : Int :=
  (b.rows.map Row.qty).sum

/-- Summed card quantity stored in the whole state. -/
def totalQuantity (st : State) : Int :=
  (st.map Box.qty).sum

/-- Number of card records in a section. -/
def Section.ncards (s : Section) : Int :=
  (s.cards.length : Int)

/-- Number of card records under a row. -/
def Row.ncards (r : Row) : Int :=
  (r.sections.map Section.ncards).sum

/-- Number of card records under a box. -/
def Box.ncards (b : Box) : Int :=
  (b.rows.map Row.ncards).sum

/-- Number of card records in the whole state. -/
def numCards (st : State) : Int :=
  (st.map Box.ncards).sum

/-- All card records of the state (the cards table). -/
def allCards (st : State) : List Card :=
  st.flatMap fun b => b.rows.flatMap fun r => r.sections.flatMap fun s => s.cards

/-- update_card_quantity (inv_manager.py:290-317).  It queries the first
card with the given tcg_id; when none exists it only prints and leaves the
state unchanged.  When a card exists, line 298 reads
existing_card.max_quantity — the Card class of this file defines a capacity
column but no max_quantity column, so the read raises AttributeError before
any mutation happens. -/
def update_card_quantity (st : State) (tcg_id : Int) (_additional_quantity : Int) :
    Except PyError State :=
  match (allCards st).find? (fun c => c.tcg_id == tcg_id) with
  | none => Except.ok st
  | some _ =>
    Except.error (PyError.attributeError "Card object has no attribute max_quantity")

/-- Capacity-and-consistency predicate for a section: the card_count cache
agrees with the summed quantity of the stored cards, and respects the
max_cards ceiling. -/
def sectionOk (s : Section) : Bool :=
  decide (s.card_count = s.qty) && decide (s.card_count ≤ s.max_cards)

/-- Capacity-and-consistency predicate for a row. -/
def rowOk (r : Row) : Bool :=
  r.sections.all sectionOk && decide (r.section_count = (r.sections.length : Int))
    && decide ((r.sections.length : Int) ≤ r.max_sections)

/-- Capacity-and-consistency predicate for a box. -/
def boxOk (b : Box) : Bool :=
  b.rows.all rowOk && decide (b.row_count = (b.rows.length : Int))
    && decide ((b.rows.length : Int) ≤ b.max_rows)

/-- Capacity invariant of the whole state: every container's child
contribution (summed quantity for sections, child count for rows and boxes)
agrees with its cached counter and respects its fixed ceiling. -/
def capacityOk (st : State) : Bool :=
  st.all boxOk

end InvManager

namespace Mtg

/-- Card row of mtg_inventory_system.py (columns id, section_id, tcg_id,
card_name, set_name, quantity, max_quantity). -/
structure Card where
  id : Int
  section_id : Int := 0
  tcg_id : Int
  card_name : String := ""
  set_name : String := ""
  quantity : Int := 0
  max_quantity : Int := 40
  deriving DecidableEq, Repr

/-- Section row of mtg_inventory_system.py (columns id, row_id, card_count,
max_card_quantity).  Note: this variant's Section class defines no
current_quantity column and no max_capacity attribute. -/
structure Section where
  id : Int
  row_id : Int := 0
  card_count : Int := 0
  max_card_quantity : Int := 100
  deriving DecidableEq, Repr

/-- Row of mtg_inventory_system.py (columns id, box_id, section_count,
max_sections). -/
structure Row where
  id : Int
  box_id : Int := 0
  section_count : Int := 0
  max_sections : Int := 10
  deriving DecidableEq, Repr

/-- Box of mtg_inventory_system.py (columns id, name, location, row_count,
max_rows). -/
structure Box where
  id : Int
  name : Option String := none
  location : Option String := none
  row_count : Int := 0
  max_rows : Int := 5
  deriving DecidableEq, Repr

/-- The relational session state of mtg_inventory_system.py: one table per
entity kind, parent links through the *_id columns. -/
structure MtgDB where
  boxes : List Box := []
  rows : List Row := []
  sections : List Section := []
  cards : List Card := []
  deriving DecidableEq, Repr

/-- A `{'Location': str, 'Card Count': int}` dict built by
find_card_location. -/
structure LocationEntry where
  location : String
  cardCount : Int
  deriving DecidableEq, Repr

/-- A `{'card': card, 'quantity_to_remove': int}` dict built by
find_card_location. -/
structure Removal where
  card : Card
  quantity_to_remove : Int
  deriving DecidableEq, Repr

/-- calculate_box_location (mtg_inventory_system.py:128-140): fixed-radix
decomposition of the ordinal count of existing boxes with the constants
3 boxes per column, 4 columns per shelf, 3 shelves per rack; each component
is 1-indexed. -/
def calculate_box_location (total_boxes : Nat) : Nat × Nat × Nat × Nat :=
  let boxes_per_column := 3
  let columns_per_shelf := 4
  let shelves_per_rack := 3
  let boxes_per_shelf := boxes_per_column * columns_per_shelf
  let boxes_per_rack := boxes_per_shelf * shelves_per_rack
  (total_boxes / boxes_per_rack + 1,
   total_boxes % boxes_per_rack / boxes_per_shelf + 1,
   total_boxes % boxes_per_rack % boxes_per_shelf / boxes_per_column + 1,
   total_boxes % boxes_per_rack % boxes_per_shelf % boxes_per_column + 1)

/-- Models `getattr(item, "current_quantity", 0)` from find_or_create_storage
(mtg_inventory_system.py:162): the Section class defines no current_quantity
attribute, so getattr always returns the supplied default 0. -/
def Section.getattr_current_quantity (_ : Section) : Int := 0

/-- Models `getattr(item, "max_capacity", 0)` from find_or_create_storage
(mtg_inventory_system.py:162): no storage class defines a max_capacity
attribute, so getattr always returns the supplied default 0. -/
def Section.getattr_max_capacity (_ : Section) : Int := 0

/-- find_or_create_storage (mtg_inventory_system.py:159-174), instantiated
as called for a Row parent with Section children (attr = sections): the
availability filter `getattr(item, "current_quantity", 0) + 1 <=
getattr(item, "max_capacity", 0)` reduces to `1 <= 0` on every child, so no
existing child is ever selected; when the parent is below max_sections the
source then evaluates `Section(parent_id=parent.id)`, and the declarative
constructor raises TypeError because the Section class has no parent_id
column; at the ceiling it returns None. -/
def find_or_create_storage (parent : Row) (sections : List Section) :
    Except PyError (Option Section) :=
  let available := sections.filter fun s =>
    decide (s.getattr_current_quantity + 1 ≤ s.getattr_max_capacity)
  match available with
  | s :: _ => Except.ok (some s)
  | [] =>
    if (sections.length : Int) < parent.max_sections then
      Except.error (PyError.typeError "parent_id is an invalid keyword argument for Section")
    else
      Except.ok none

/-- create_storage_object (mtg_inventory_system.py:197-211), instantiated as
called from insert_card for a Row parent with Section children: the
availability generator reads item.current_quantity directly (no getattr
default), an attribute no Section instance has, so with at least one
existing child the first evaluation raises AttributeError; with no children
the parent (0 children) is below max_sections and the constructor call
`Section(parent_id=...)` raises TypeError. -/
def create_storage_object (parent : Row) (sections : List Section) :
    Except PyError (Option Section) :=
  match sections with
  | _ :: _ =>
    Except.error (PyError.attributeError "Section object has no attribute current_quantity")
  | [] =>
    if (0 : Int) < parent.max_sections then
      Except.error (PyError.typeError "parent_id is an invalid keyword argument for Section")
    else
      Except.ok none

/-- find_available_section (mtg_inventory_system.py:192-195).  Building the
query filter evaluates the class attribute Section.current_quantity; the
Section class defines no such column, so the call raises AttributeError
before reading anything from the database. -/
def find_available_section (_db : MtgDB) : Except PyError (Option Section) :=
  Except.error (PyError.attributeError "type object Section has no attribute current_quantity")

/-- insert_card (mtg_inventory_system.py:213-244).  Its first statement
calls find_available_section, which always raises AttributeError, so no
later statement is reachable.  (Each later statement would itself raise:
every `add_card_to_section(session, section, Card)` call passes three
arguments to the six-parameter definition at lines 185-190 and raises
TypeError, and create_storage_object raises as modelled above.) -/
def insert_card (db : MtgDB) (_tcg_id : Int) (_card_name _set_name : String)
    (_quantity : Int) : Except PyError MtgDB :=
  match find_available_section db with
  | Except.error e => Except.error e
  | Except.ok _ =>
    Except.error (PyError.typeError "add_card_to_section missing 3 required positional arguments")

/-- The four-entity join of find_card_location
(mtg_inventory_system.py:306-311), including its join conditions exactly as
written — in particular `Section.id == Card.id` (not Card.section_id):
all (box, row, section, card) tuples with box.id = row.box_id,
row.id = section.row_id, section.id = card.id and card.tcg_id = tcg_id,
enumerated in table order. -/
def queryJoin (db : MtgDB) (tcg_id : Int) : List (Box × Row × Section × Card) :=
  db.boxes.flatMap fun b =>
    db.rows.flatMap fun r =>
      db.sections.flatMap fun s =>
        db.cards.filterMap fun c =>
          if b.id = r.box_id ∧ r.id = s.row_id ∧ s.id = c.id ∧ c.tcg_id = tcg_id then
            some (b, r, s, c)
          else
            none

/-- find_card_location (mtg_inventory_system.py:302-334).  The query yields
4-tuples (Box, Row, Section, Card), but the loop header unpacks each element
into five variables `box, row, section, sleeve, card`, so the first
iteration raises ValueError; only when the query result is empty does the
loop body never run and the function returns two empty lists. -/
def find_card_location (db : MtgDB) (tcg_id : Int) (_needed_quantity : Int) :
    Except PyError (List LocationEntry × List Removal) :=
  match queryJoin db tcg_id with
  | [] => Except.ok ([], [])
  | _ :: _ =>
    Except.error (PyError.valueError "not enough values to unpack, expected 5, got 4")

/-- remove_cards (mtg_inventory_system.py:336-339).  Every element of the
cards_to_remove list built by find_card_location is a dict, not a mapped
Card instance, so session.delete raises UnmappedInstanceError on the first
element; only the empty list commits with no change. -/
def remove_cards (db : MtgDB) (cards_to_remove : List Removal) : Except PyError MtgDB :=
  match cards_to_remove with
  | [] => Except.ok db
  | _ :: _ =>
    Except.error (PyError.unmappedInstanceError "Class builtins.dict is not mapped")

end Mtg

/-! ## Helper lemmas -/

theorem listModify_length {α : Type u} (f : α → α) :
    ∀ (l : List α) (i : Nat), (listModify l i f).length = l.length
  | [], _ => rfl
  | _ :: _, 0 => rfl
  | x :: xs, n + 1 => by
    simp only [listModify, List.length_cons]
    rw [listModify_length f xs n]

theorem listModify_map_sum {α : Type u} (g : α → Int) (f : α → α) :
    ∀ (l : List α) (i : Nat) (x : α), l[i]? = some x →
      ((listModify l i f).map g).sum = (l.map g).sum + (g (f x) - g x)
  | [], i, x, h => by simp at h
  | y :: ys, 0, x, h => by
    simp at h
    subst h
    simp [listModify]
    ring
  | y :: ys, n + 1, x, h => by
    simp at h
    have ih := listModify_map_sum g f ys n x h
    simp [listModify, ih]
    ring

theorem listModify_all {α : Type u} (p : α → Bool) (f : α → α) :
    ∀ (l : List α) (i : Nat), l.all p = true →
      (∀ x, l[i]? = some x → p (f x) = true) →
      (listModify l i f).all p = true
  | [], _, _, _ => rfl
  | y :: ys, 0, h, hf => by
    simp only [listModify, List.all_cons, Bool.and_eq_true] at h ⊢
    exact ⟨hf y (by simp), h.2⟩
  | y :: ys, n + 1, h, hf => by
    simp only [listModify, List.all_cons, Bool.and_eq_true] at h ⊢
    exact ⟨h.1, listModify_all p f ys n h.2 (fun x hx => hf x (by simpa using hx))⟩

theorem all_get {α : Type u} (p : α → Bool) {l : List α} {i : Nat} {x : α}
    (h : l.all p = true) (hx : l[i]? = some x) : p x = true :=
  List.all_eq_true.mp h x (List.getElem?_mem hx)

namespace InvManager

theorem findOpenIdx_spec :
    ∀ (l : List Section) (j : Nat), findOpenIdx l = some j →
      ∃ s, l[j]? = some s ∧ s.can_add_card 12 = true
  | [], j, h => by simp [findOpenIdx] at h
  | s :: ss, j, h => by
    by_cases hs : s.can_add_card 12
    · simp [findOpenIdx, hs] at h
      subst h
      exact ⟨s, by simp, hs⟩
    · simp only [findOpenIdx, hs, Bool.false_eq_true, if_false] at h
      cases hfo : findOpenIdx ss with
      | none => rw [hfo] at h; exact absurd h (by simp)
      | some j0 =>
        rw [hfo] at h
        simp at h
        obtain ⟨t, ht, hct⟩ := findOpenIdx_spec ss j0 hfo
        subst h
        exact ⟨t, by simpa using ht, hct⟩

theorem findOpenIdx_none :
    ∀ (l : List Section), findOpenIdx l = none →
      ∀ (k : Nat) (s : Section), l[k]? = some s → s.can_add_card 12 = false
  | [], _, k, s, hk => by simp at hk
  | t :: ts, h, k, s, hk => by
    by_cases ht : t.can_add_card 12
    · simp [findOpenIdx, ht] at h
    · cases k with
      | zero =>
        simp at hk
        subst hk
        simpa using ht
      | succ k0 =>
        simp only [findOpenIdx, ht, Bool.false_eq_true, if_false] at h
        cases hfo : findOpenIdx ts with
        | none => exact findOpenIdx_none ts hfo k0 s (by simpa using hk)
        | some j0 => rw [hfo] at h; simp at h

theorem findOpenIdx_first :
    ∀ (l : List Section) (j : Nat), findOpenIdx l = some j →
      ∀ (k : Nat), k < j → ∀ (s : Section), l[k]? = some s →
        s.can_add_card 12 = false
  | [], j, h => by simp [findOpenIdx] at h
  | t :: ts, j, h => by
    by_cases ht : t.can_add_card 12
    · simp [findOpenIdx, ht] at h
      subst h
      intro k hk
      omega
    · simp only [findOpenIdx, ht, Bool.false_eq_true, if_false] at h
      cases hfo : findOpenIdx ts with
      | none => rw [hfo] at h; exact absurd h (by simp)
      | some j0 =>
        rw [hfo] at h
        simp at h
        subst h
        intro k hk s hks
        cases k with
        | zero =>
          simp at hks
          subst hks
          simpa using ht
        | succ k0 =>
          exact findOpenIdx_first ts j0 hfo k0 (by omega) s (by simpa using hks)

theorem findPath_spec :
    ∀ (rows : List Row) (i j : Nat), findPath rows = some (i, j) →
      ∃ r s, rows[i]? = some r ∧ r.sections[j]? = some s ∧
        s.can_add_card 12 = true
  | [], i, j, h => by simp [findPath] at h
  | r :: rs, i, j, h => by
    cases hfo : findOpenIdx r.sections with
    | some j0 =>
      rw [findPath, hfo] at h
      simp at h
      obtain ⟨hi, hj⟩ := h
      subst hi
      subst hj
      obtain ⟨s, hs, hcs⟩ := findOpenIdx_spec r.sections j0 hfo
      exact ⟨r, s, by simp, hs, hcs⟩
    | none =>
      rw [findPath, hfo] at h
      cases hfp : findPath rs with
      | none => rw [hfp] at h; exact absurd h (by simp)
      | some ij =>
        rw [hfp] at h
        obtain ⟨i0, j0⟩ := ij
        simp at h
        obtain ⟨hi, hj⟩ := h
        subst hi
        subst hj
        obtain ⟨r1, s, hr1, hs, hcs⟩ := findPath_spec rs i0 j0 hfp
        exact ⟨r1, s, by simpa using hr1, hs, hcs⟩

theorem findPath_first :
    ∀ (rows : List Row) (i j : Nat), findPath rows = some (i, j) →
      ∀ (i2 j2 : Nat), lexLt (i2, j2) (i, j) →
        ∀ (r : Row) (s : Section), rows[i2]? = some r →
          r.sections[j2]? = some s → s.can_add_card 12 = false
  | [], i, j, h => by simp [findPath] at h
  | r :: rs, i, j, h => by
    cases hfo : findOpenIdx r.sections with
    | some j0 =>
      rw [findPath, hfo] at h
      simp at h
      obtain ⟨hi, hj⟩ := h
      subst hi
      subst hj
      intro i2 j2 hlt r2 s hr2 hs
      rcases hlt with hlt | ⟨heq, hlt⟩
      · exact absurd hlt (by omega)
      · simp [lexLt] at heq
        subst heq
        simp at hr2
        subst hr2
        exact findOpenIdx_first _ j0 hfo j2 (by simpa using hlt) s hs
    | none =>
      rw [findPath, hfo] at h
      cases hfp : findPath rs with
      | none => rw [hfp] at h; exact absurd h (by simp)
      | some ij =>
        rw [hfp] at h
        obtain ⟨i0, j0⟩ := ij
        simp at h
        obtain ⟨hi, hj⟩ := h
        subst hi
        subst hj
        intro i2 j2 hlt r2 s hr2 hs
        cases i2 with
        | zero =>
          simp at hr2
          subst hr2
          exact findOpenIdx_none _ hfo j2 s hs
        | succ i1 =>
          refine findPath_first rs i0 j0 hfp i1 j2 ?_ r2 s (by simpa using hr2) hs
          rcases hlt with hlt | ⟨heq, hlt⟩
          · simp [lexLt] at hlt ⊢
            omega
          · simp [lexLt] at heq ⊢
            omega

end InvManager

namespace InvManager

theorem locateFrom_state (st1 : State) (b : Box) :
    (locateFrom st1 b).1 = st1 ∨ (locateFrom st1 b).1 = st1 ++ [mkBox] := by
  unfold locateFrom
  cases hfp : findPath b.rows with
  | none => simp
  | some ij =>
    obtain ⟨i, j⟩ := ij
    simp

theorem locateFrom_spec (st1 : State) (b : Box)
    (hb : st1[st1.length - 1]? = some b) :
    ∃ bx r s,
      (locateFrom st1 b).1[(locateFrom st1 b).2.1]? = some bx ∧
      bx.rows[(locateFrom st1 b).2.2.1]? = some r ∧
      r.sections[(locateFrom st1 b).2.2.2]? = some s ∧
      s.can_add_card 12 = true := by
  unfold locateFrom
  cases hfp : findPath b.rows with
  | some ij =>
    obtain ⟨i, j⟩ := ij
    obtain ⟨r, s, hr, hs, hcs⟩ := findPath_spec b.rows i j hfp
    exact ⟨b, r, s, hb, hr, hs, hcs⟩
  | none =>
    dsimp only
    refine ⟨mkBox, mkRow, {}, ?_, ?_, ?_, ?_⟩
    · exact List.getElem?_concat_length st1 mkBox
    · decide
    · decide
    · decide

theorem locate_spec (st : State) :
    ∃ bx r s,
      (locate_insertion_point st).1[(locate_insertion_point st).2.1]? = some bx ∧
      bx.rows[(locate_insertion_point st).2.2.1]? = some r ∧
      r.sections[(locate_insertion_point st).2.2.2]? = some s ∧
      s.can_add_card 12 = true := by
  cases st with
  | nil => simpa [locate_insertion_point] using locateFrom_spec [mkBox] mkBox (by decide)
  | cons b bs =>
    have h2 : (b :: bs).getLast? = some ((b :: bs).getLast (by simp)) :=
      List.getLast?_eq_getLast _ _
    have hb : (b :: bs)[(b :: bs).length - 1]? = some ((b :: bs).getLast (by simp)) := by
      rw [← List.getLast?_eq_getElem?]
      exact h2
    simpa [locate_insertion_point, h2] using
      locateFrom_spec (b :: bs) ((b :: bs).getLast (by simp)) hb

theorem locate_state (st : State) :
    (locate_insertion_point st).1 = st ∨ (locate_insertion_point st).1 = st ++ [mkBox] ∨
      (locate_insertion_point st).1 = (st ++ [mkBox]) ++ [mkBox] := by
  unfold locate_insertion_point
  by_cases hempty : st.isEmpty = true
  · rw [if_pos hempty]
    rcases locateFrom_state (st ++ [mkBox]) ((st ++ [mkBox]).getLast?.getD mkBox) with h | h
    · right; left; exact h
    · right; right; exact h
  · rw [if_neg hempty]
    rcases locateFrom_state st (st.getLast?.getD mkBox) with h | h
    · left; exact h
    · right; left; exact h

theorem mkBox_qty : Box.qty mkBox = 0 := by decide

theorem mkBox_ncards : Box.ncards mkBox = 0 := by decide

theorem mkBox_ok : boxOk mkBox = true := by decide

theorem totalQuantity_append (s1 s2 : State) :
    totalQuantity (s1 ++ s2) = totalQuantity s1 + totalQuantity s2 := by
  simp [totalQuantity]

theorem numCards_append (s1 s2 : State) :
    numCards (s1 ++ s2) = numCards s1 + numCards s2 := by
  simp [numCards]

theorem locate_measures (st : State) :
    totalQuantity (locate_insertion_point st).1 = totalQuantity st ∧
      numCards (locate_insertion_point st).1 = numCards st := by
  rcases locate_state st with h | h | h <;>
    simp [h, totalQuantity_append, numCards_append, mkBox_qty, mkBox_ncards,
      totalQuantity, numCards]

theorem measure_updateSection (g : Section → Int) (st : State) (p : Nat × Nat × Nat)
    (f : Section → Section) (b : Box) (r : Row) (s : Section)
    (hb : st[p.1]? = some b) (hr : b.rows[p.2.1]? = some r)
    (hs : r.sections[p.2.2]? = some s) :
    ((updateSection st p f).map fun b0 => (b0.rows.map fun r0 => (r0.sections.map g).sum).sum).sum
      = ((st.map fun b0 => (b0.rows.map fun r0 => (r0.sections.map g).sum).sum).sum)
        + (g (f s) - g s) := by
  have h3 := listModify_map_sum g f r.sections p.2.2 s hs
  have h2 := listModify_map_sum (fun r0 : Row => (r0.sections.map g).sum)
      (fun r0 : Row => { r0 with sections := listModify r0.sections p.2.2 f }) b.rows p.2.1 r hr
  have h1 := listModify_map_sum (fun b0 : Box => (b0.rows.map fun r0 => (r0.sections.map g).sum).sum)
      (fun b0 : Box => { b0 with rows := listModify b0.rows p.2.1 (fun r0 : Row => { r0 with sections := listModify r0.sections p.2.2 f }) })
      st p.1 b hb
  have e1 : (fun b0 : Box => (b0.rows.map fun r0 => (r0.sections.map g).sum).sum) ((fun b0 : Box => { b0 with rows := listModify b0.rows p.2.1 (fun r0 : Row => { r0 with sections := listModify r0.sections p.2.2 f }) }) b) = ((listModify b.rows p.2.1 (fun r0 : Row => { r0 with sections := listModify r0.sections p.2.2 f })).map fun r0 => (r0.sections.map g).sum).sum := rfl
  have e2 : (fun r0 : Row => (r0.sections.map g).sum) ((fun r0 : Row => { r0 with sections := listModify r0.sections p.2.2 f }) r) = ((listModify r.sections p.2.2 f).map g).sum := rfl
  rw [e1] at h1
  rw [e2] at h2
  rw [h2, h3] at h1
  unfold updateSection
  rw [h1]
  ring

theorem totalQuantity_updateSection (st : State) (p : Nat × Nat × Nat)
    (f : Section → Section) (b : Box) (r : Row) (s : Section)
    (hb : st[p.1]? = some b) (hr : b.rows[p.2.1]? = some r)
    (hs : r.sections[p.2.2]? = some s) :
    totalQuantity (updateSection st p f) = totalQuantity st + ((f s).qty - s.qty) :=
  measure_updateSection Section.qty st p f b r s hb hr hs

theorem numCards_updateSection (st : State) (p : Nat × Nat × Nat)
    (f : Section → Section) (b : Box) (r : Row) (s : Section)
    (hb : st[p.1]? = some b) (hr : b.rows[p.2.1]? = some r)
    (hs : r.sections[p.2.2]? = some s) :
    numCards (updateSection st p f) = numCards st + ((f s).ncards - s.ncards) :=
  measure_updateSection Section.ncards st p f b r s hb hr hs

end InvManager

namespace InvManager

theorem capacityOk_getSection (st : State) (p : Nat × Nat × Nat) (s : Section)
    (h : capacityOk st = true) (hs : getSection st p = some s) :
    sectionOk s = true := by
  unfold getSection at hs
  cases hb : st[p.1]? with
  | none => rw [hb] at hs; simp at hs
  | some b =>
    rw [hb] at hs
    simp only [Option.some_bind] at hs
    cases hr : b.rows[p.2.1]? with
    | none => rw [hr] at hs; simp at hs
    | some r =>
      rw [hr] at hs
      simp only [Option.some_bind] at hs
      have hbOk : boxOk b = true := all_get boxOk h hb
      simp only [boxOk, Bool.and_eq_true] at hbOk
      have hrOk : rowOk r = true := all_get rowOk hbOk.1.1 hr
      simp only [rowOk, Bool.and_eq_true] at hrOk
      exact all_get sectionOk hrOk.1.1 hs

theorem capacityOk_updateSection (st : State) (p : Nat × Nat × Nat)
    (f : Section → Section) (h : capacityOk st = true)
    (hf : ∀ s, getSection st p = some s → sectionOk (f s) = true) :
    capacityOk (updateSection st p f) = true := by
  unfold capacityOk updateSection
  apply listModify_all boxOk _ st p.1 h
  intro b0 hb0
  have hbOk : boxOk b0 = true := all_get boxOk h hb0
  simp only [boxOk, Bool.and_eq_true] at hbOk
  simp only [boxOk, Bool.and_eq_true]
  refine ⟨⟨?_, ?_⟩, ?_⟩
  · apply listModify_all rowOk _ b0.rows p.2.1 hbOk.1.1
    intro r0 hr0
    have hrOk : rowOk r0 = true := all_get rowOk hbOk.1.1 hr0
    simp only [rowOk, Bool.and_eq_true] at hrOk
    simp only [rowOk, Bool.and_eq_true]
    refine ⟨⟨?_, ?_⟩, ?_⟩
    · apply listModify_all sectionOk f r0.sections p.2.2 hrOk.1.1
      intro s0 hs0
      apply hf
      unfold getSection
      rw [hb0]
      simp only [Option.some_bind]
      rw [hr0]
      simp only [Option.some_bind]
      exact hs0
    · rw [listModify_length]
      exact hrOk.1.2
    · rw [listModify_length]
      exact hrOk.2
  · rw [listModify_length]
    exact hbOk.1.2
  · rw [listModify_length]
    exact hbOk.2

theorem capacityOk_append (s1 s2 : State) :
    capacityOk (s1 ++ s2) = (capacityOk s1 && capacityOk s2) := by
  simp [capacityOk]

theorem capacityOk_locate (st : State) (h : capacityOk st = true) :
    capacityOk (locate_insertion_point st).1 = true := by
  have h2 : capacityOk [mkBox] = true := by decide
  rcases locate_state st with h1 | h1 | h1
  · rw [h1]; exact h
  · rw [h1, capacityOk_append, h, h2]
    rfl
  · rw [h1, capacityOk_append, capacityOk_append, h, h2]
    rfl

theorem insertAt_measures (st1 : State) (p : Nat × Nat × Nat) (c : Card)
    (b : Box) (r : Row) (s : Section)
    (hb : st1[p.1]? = some b) (hr : b.rows[p.2.1]? = some r)
    (hs : r.sections[p.2.2]? = some s) :
    totalQuantity (insertAt st1 p c).1
      = totalQuantity st1 + (if (insertAt st1 p c).2 then c.quantity else 0) ∧
    numCards (insertAt st1 p c).1
      = numCards st1 + (if (insertAt st1 p c).2 then 1 else 0) := by
  have hget : getSection st1 p = some s := by
    unfold getSection
    rw [hb]
    simp only [Option.some_bind]
    rw [hr]
    simp only [Option.some_bind]
    exact hs
  unfold insertAt
  rw [hget]
  by_cases hc : s.can_add_card c.quantity
  · simp only [Option.elim, Section.add_card, hc, if_true]
    constructor
    · rw [totalQuantity_updateSection st1 p _ b r s hb hr hs]
      simp [Section.qty]
    · rw [numCards_updateSection st1 p _ b r s hb hr hs]
      simp [Section.ncards]
  · simp only [Option.elim, Section.add_card, hc, Bool.false_eq_true, if_false]
    simp

theorem insertAt_capacity (st1 : State) (p : Nat × Nat × Nat) (c : Card)
    (b : Box) (r : Row) (s : Section)
    (hb : st1[p.1]? = some b) (hr : b.rows[p.2.1]? = some r)
    (hs : r.sections[p.2.2]? = some s) (h : capacityOk st1 = true) :
    capacityOk (insertAt st1 p c).1 = true := by
  have hget : getSection st1 p = some s := by
    unfold getSection
    rw [hb]
    simp only [Option.some_bind]
    rw [hr]
    simp only [Option.some_bind]
    exact hs
  unfold insertAt
  rw [hget]
  by_cases hc : s.can_add_card c.quantity
  · simp only [Option.elim, Section.add_card, hc, if_true]
    apply capacityOk_updateSection st1 p _ h
    intro s0 hs0
    rw [hget] at hs0
    have hss : s0 = s := by injection hs0 with e; exact e.symm
    subst hss
    have hsOk : sectionOk s0 = true := capacityOk_getSection st1 p s0 h hget
    simp only [sectionOk, Bool.and_eq_true, decide_eq_true_eq] at hsOk
    simp only [Section.can_add_card, decide_eq_true_eq] at hc
    simp only [sectionOk, Bool.and_eq_true, decide_eq_true_eq]
    constructor
    · simp only [Section.qty, List.map_append, List.sum_append, List.map_cons,
        List.map_nil, List.sum_cons, List.sum_nil]
      simp only [Section.qty] at hsOk
      omega
    · exact hc
  · simp only [Option.elim, Section.add_card, hc, Bool.false_eq_true, if_false]
    exact h

end InvManager

namespace InvManager

theorem locateFrom_box_index (st1 : State) (b : Box) :
    st1.length - 1 ≤ (locateFrom st1 b).2.1 := by
  unfold locateFrom
  cases hfp : findPath b.rows with
  | some ij =>
    obtain ⟨i, j⟩ := ij
    simp
  | none =>
    simp

theorem locateFrom_first (st1 : State) (b : Box)
    (hb : st1[st1.length - 1]? = some b) :
    ∀ i j : Nat,
      lexLt (i, j) ((locateFrom st1 b).2.2.1, (locateFrom st1 b).2.2.2) →
      ∀ s : Section,
        getSection (locateFrom st1 b).1 ((locateFrom st1 b).2.1, i, j) = some s →
        s.can_add_card 12 = false := by
  unfold locateFrom
  cases hfp : findPath b.rows with
  | some ij =>
    obtain ⟨i0, j0⟩ := ij
    dsimp only
    intro i j hlt s hget
    unfold getSection at hget
    dsimp only at hget
    rw [hb] at hget
    simp only [Option.some_bind] at hget
    cases hr : b.rows[i]? with
    | none => rw [hr] at hget; simp at hget
    | some r =>
      rw [hr] at hget
      simp only [Option.some_bind] at hget
      exact findPath_first b.rows i0 j0 hfp i j hlt r s hr hget
  | none =>
    dsimp only
    intro i j hlt s hget
    rcases hlt with h | ⟨h1, h2⟩
    · exact absurd h (by omega)
    · exact absurd h2 (by omega)

theorem locate_eq_locateFrom (st : State) :
    ∃ st1 b, st1[st1.length - 1]? = some b ∧
      locate_insertion_point st = locateFrom st1 b ∧
      st.length ≤ st1.length := by
  cases st with
  | nil =>
    exact ⟨[mkBox], mkBox, by decide, rfl, by simp⟩
  | cons b0 bs =>
    refine ⟨b0 :: bs, (b0 :: bs).getLast (by simp), ?_, ?_, le_refl _⟩
    · rw [← List.getLast?_eq_getElem?]
      exact List.getLast?_eq_getLast _ _
    · unfold locate_insertion_point
      rw [if_neg (by simp)]
      dsimp only
      rw [List.getLast?_eq_getLast (b0 :: bs) (by simp)]
      rfl

end InvManager

/-! ## Claim theorems -/

/-- C1, counterexample: inserting quantity 15 (item 1001) into the empty
hierarchy, whose leaf ceiling is 12, does not split the quantity across two
records of 12 and 3 — insert_card reports failure, places zero records and
the placed total is 0, not 15.  This refutes conservation under spillover as
the claim states it. -/
theorem C1_spillover_counterexample :
    (InvManager.insert_card [] 1001 "CardName" "SetName" 15).2 = false ∧
    InvManager.numCards (InvManager.insert_card [] 1001 "CardName" "SetName" 15).1 = 0 ∧
    InvManager.totalQuantity (InvManager.insert_card [] 1001 "CardName" "SetName" 15).1 ≠ 15 := by
  decide

/-- C1 (amended): insert_card never splits a request.  Each call either
succeeds, adding exactly one new record holding the full requested quantity,
or fails, adding no record at all; so the placed total grows by the full
quantity on success and by nothing on failure. -/
theorem C1_amended_no_split (st : InvManager.State) (tcg_id : Int)
    (card_name set_name : String) (quantity : Int) :
    InvManager.totalQuantity (InvManager.insert_card st tcg_id card_name set_name quantity).1
      = InvManager.totalQuantity st
        + (if (InvManager.insert_card st tcg_id card_name set_name quantity).2 then quantity else 0) ∧
    InvManager.numCards (InvManager.insert_card st tcg_id card_name set_name quantity).1
      = InvManager.numCards st
        + (if (InvManager.insert_card st tcg_id card_name set_name quantity).2 then 1 else 0) := by
  obtain ⟨b, r, s, hb, hr, hs, hcs⟩ := InvManager.locate_spec st
  have hm := InvManager.insertAt_measures (InvManager.locate_insertion_point st).1
    (InvManager.locate_insertion_point st).2
    { tcg_id := tcg_id, card_name := card_name, set_name := set_name, quantity := quantity }
    b r s hb hr hs
  have hl := InvManager.locate_measures st
  unfold InvManager.insert_card
  exact ⟨by rw [hm.1, hl.1], by rw [hm.2, hl.2]⟩

/-- C9, counterexample: a request of quantity 0 (a non-positive quantity) is
not rejected: insert_card reports success, creates a box and adds an item
record, so structural mutation does occur and no InvalidQuantity error
exists. -/
theorem C9_invalid_quantity_counterexample :
    (InvManager.insert_card [] 1001 "CardName" "SetName" 0).2 = true ∧
    InvManager.numCards (InvManager.insert_card [] 1001 "CardName" "SetName" 0).1 = 1 ∧
    (InvManager.insert_card [] 1001 "CardName" "SetName" 0).1.length = 1 := by
  decide

/-- C9 (amended): the placement engine performs no quantity validation at
all: a request with zero or negative quantity is processed like any other;
on the empty hierarchy it succeeds, creates the hierarchy and stores a
record of the non-positive quantity. -/
theorem C9_amended_no_validation (q : Int) (hq0 : q ≤ 0) :
    (InvManager.insert_card [] 1001 "CardName" "SetName" q).2 = true ∧
    InvManager.numCards (InvManager.insert_card [] 1001 "CardName" "SetName" q).1 = 1 ∧
    InvManager.totalQuantity (InvManager.insert_card [] 1001 "CardName" "SetName" q).1 = q := by
  have hq : (0 : Int) + q ≤ 12 := by omega
  have hq2 : q ≤ (12 : Int) := by omega
  have hm := InvManager.insertAt_measures [InvManager.mkBox] (0, 0, 0)
      { tcg_id := 1001, card_name := "CardName", set_name := "SetName", quantity := q }
      InvManager.mkBox InvManager.mkRow {} (by decide) (by decide) (by decide)
  have hsucc : (InvManager.insertAt [InvManager.mkBox] (0, 0, 0)
      { tcg_id := 1001, card_name := "CardName", set_name := "SetName", quantity := q }).2 = true := by
    unfold InvManager.insertAt
    rw [show InvManager.getSection [InvManager.mkBox] (0, 0, 0) = some {} from rfl]
    simp [Option.elim, InvManager.Section.add_card, InvManager.Section.can_add_card, hq, hq2]
  rw [hsucc] at hm
  refine ⟨hsucc, ?_, ?_⟩
  · show InvManager.numCards (InvManager.insertAt [InvManager.mkBox] (0, 0, 0)
        { tcg_id := 1001, card_name := "CardName", set_name := "SetName", quantity := q }).1 = 1
    rw [hm.2]
    decide
  · show InvManager.totalQuantity (InvManager.insertAt [InvManager.mkBox] (0, 0, 0)
        { tcg_id := 1001, card_name := "CardName", set_name := "SetName", quantity := q }).1 = q
    rw [hm.1]
    rw [show InvManager.totalQuantity [InvManager.mkBox] = 0 from by decide]
    simp

/-- C9 witness: the amended statement at the concrete quantity -4. -/
theorem C9_amended_no_validation_witness :
    (InvManager.insert_card [] 1001 "CardName" "SetName" (-4)).2 = true ∧
    InvManager.numCards (InvManager.insert_card [] 1001 "CardName" "SetName" (-4)).1 = 1 ∧
    InvManager.totalQuantity (InvManager.insert_card [] 1001 "CardName" "SetName" (-4)).1 = -4 :=
  C9_amended_no_validation (-4) (by decide)

/-- C4, counterexample: after inserting a single unit into the empty
hierarchy, the first section of the first box holds 1 unit and can still
accept a positive quantity (residual 11 of 12), yet the next placement
search does not select it: it selects the second section, because the scan
requires room for 12 more units (can_add_card 12), not residual ≥ 1. -/
theorem C4_first_fit_counterexample :
    ((InvManager.getSection (InvManager.insert_card [] 77 "CardName" "SetName" 1).1 (0, 0, 0)).any
        fun s => s.can_add_card 1) = true ∧
    (InvManager.locate_insertion_point (InvManager.insert_card [] 77 "CardName" "SetName" 1).1).2
      = (0, 0, 1) := by
  decide

/-- C4 (amended): the placement search inspects only the most recently
created top-level container (the returned box index is never below
length - 1), scans its rows and sections in order, and selects the first
section with room for 12 more units by the card-count measure
(can_add_card 12) — every section strictly earlier in that box fails
can_add_card 12; when none qualifies a fresh box is appended and its first
section is selected. -/
theorem C4_amended_last_box_threshold (st : InvManager.State) :
    st.length - 1 ≤ (InvManager.locate_insertion_point st).2.1 ∧
    ((InvManager.getSection (InvManager.locate_insertion_point st).1
        (InvManager.locate_insertion_point st).2).any fun s => s.can_add_card 12) = true ∧
    (∀ i j : Nat,
      lexLt (i, j) ((InvManager.locate_insertion_point st).2.2.1,
        (InvManager.locate_insertion_point st).2.2.2) →
      ∀ s : InvManager.Section,
        InvManager.getSection (InvManager.locate_insertion_point st).1
          ((InvManager.locate_insertion_point st).2.1, i, j) = some s →
        s.can_add_card 12 = false) := by
  obtain ⟨st1, b, hb, heq, hlen⟩ := InvManager.locate_eq_locateFrom st
  rw [heq]
  refine ⟨?_, ?_, ?_⟩
  · have := InvManager.locateFrom_box_index st1 b
    omega
  · obtain ⟨bx, r, s, hbx, hr, hs, hcs⟩ := InvManager.locateFrom_spec st1 b hb
    have hg : InvManager.getSection (InvManager.locateFrom st1 b).1
        (InvManager.locateFrom st1 b).2 = some s := by
      unfold InvManager.getSection
      rw [hbx]
      simp only [Option.some_bind]
      rw [hr]
      simp only [Option.some_bind]
      exact hs
    simp [hg, Option.any, hcs]
  · exact InvManager.locateFrom_first st1 b hb

/-- C4 witness: the amended statement applied to the empty hierarchy,
projected to its closed conjuncts. -/
theorem C4_amended_witness :
    ([] : InvManager.State).length - 1 ≤ (InvManager.locate_insertion_point []).2.1 ∧
    ((InvManager.getSection (InvManager.locate_insertion_point []).1
        (InvManager.locate_insertion_point []).2).any fun s => s.can_add_card 12) = true :=
  ⟨(C4_amended_last_box_threshold []).1, (C4_amended_last_box_threshold []).2.1⟩

/-- C10: each child-adding method of inv_manager.py either returns False and
leaves the parent fully unchanged, or returns True, appends exactly one child
and advances the counter (by one for add_row and add_section, by the card's
quantity for add_card), with the counter never pushed beyond the configured
maximum. -/
theorem C10_add_methods_guarded (b : InvManager.Box) (row : InvManager.Row)
    (r : InvManager.Row) (sec : InvManager.Section)
    (s : InvManager.Section) (c : InvManager.Card) :
    ((b.add_row row).2 = false ∧ (b.add_row row).1 = b ∨
      (b.add_row row).2 = true ∧ (b.add_row row).1.rows = b.rows ++ [row] ∧
        (b.add_row row).1.row_count = b.row_count + 1 ∧
        (b.add_row row).1.row_count ≤ b.max_rows) ∧
    ((r.add_section sec).2 = false ∧ (r.add_section sec).1 = r ∨
      (r.add_section sec).2 = true ∧
        (r.add_section sec).1.sections = r.sections ++ [sec] ∧
        (r.add_section sec).1.section_count = r.section_count + 1 ∧
        (r.add_section sec).1.section_count ≤ r.max_sections) ∧
    ((s.add_card c).2 = false ∧ (s.add_card c).1 = s ∨
      (s.add_card c).2 = true ∧ (s.add_card c).1.cards = s.cards ++ [c] ∧
        (s.add_card c).1.card_count = s.card_count + c.quantity ∧
        (s.add_card c).1.card_count ≤ s.max_cards) := by
  refine ⟨?_, ?_, ?_⟩
  · by_cases h : b.row_count < b.max_rows
    · right
      simp [InvManager.Box.add_row, if_pos h]
      omega
    · left
      simp [InvManager.Box.add_row, if_neg h]
  · by_cases h : r.section_count < r.max_sections
    · right
      simp [InvManager.Row.add_section, if_pos h]
      omega
    · left
      simp [InvManager.Row.add_section, if_neg h]
  · by_cases h : s.can_add_card c.quantity = true
    · right
      have h2 : s.card_count + c.quantity ≤ s.max_cards := by
        simpa [InvManager.Section.can_add_card] using h
      simp [InvManager.Section.add_card, h]
      omega
    · left
      simp [InvManager.Section.add_card, h]

/-- C2: the capacity-and-consistency invariant is preserved by every
operation of the two sources.  In the inv_manager variant: insert_card keeps
every container's summed child contribution within its fixed ceiling, and
update_card_quantity only ever returns its input state unchanged (any other
run raises).  In the mtg variant: insert_card always raises before mutating,
and a retrieval scan that completes returns an empty removal list, so
applying its removals leaves the database unchanged. -/
theorem C2_capacity_invariant (st : InvManager.State)
    (h : InvManager.capacityOk st = true) (tcg_id : Int)
    (card_name set_name : String) (quantity : Int) :
    InvManager.capacityOk (InvManager.insert_card st tcg_id card_name set_name quantity).1 = true ∧
    (∀ st2, InvManager.update_card_quantity st tcg_id quantity = Except.ok st2 →
      InvManager.capacityOk st2 = true) ∧
    (∀ db : Mtg.MtgDB, ∃ e, Mtg.insert_card db tcg_id card_name set_name quantity
      = Except.error e) ∧
    (∀ (db : Mtg.MtgDB) (locs : List Mtg.LocationEntry) (rems : List Mtg.Removal),
      Mtg.find_card_location db tcg_id quantity = Except.ok (locs, rems) →
      Mtg.remove_cards db rems = Except.ok db) := by
  refine ⟨?_, ?_, ?_, ?_⟩
  · obtain ⟨b, r, s, hb, hr, hs, hcs⟩ := InvManager.locate_spec st
    unfold InvManager.insert_card
    exact InvManager.insertAt_capacity _ _ _ b r s hb hr hs (InvManager.capacityOk_locate st h)
  · intro st2 hok
    unfold InvManager.update_card_quantity at hok
    cases hfind : (InvManager.allCards st).find? (fun c => c.tcg_id == tcg_id) with
    | none =>
      rw [hfind] at hok
      injection hok with e
      exact e ▸ h
    | some c =>
      rw [hfind] at hok
      exact absurd hok (by simp)
  · intro db
    exact ⟨PyError.attributeError "type object Section has no attribute current_quantity", rfl⟩
  · intro db locs rems hok
    unfold Mtg.find_card_location at hok
    cases hq : Mtg.queryJoin db tcg_id with
    | nil =>
      rw [hq] at hok
      injection hok with e
      have : rems = [] := by
        have := congrArg Prod.snd e
        simpa using this
      rw [this]
      rfl
    | cons hd tl =>
      rw [hq] at hok
      exact absurd hok (by simp)

/-- C2 witness: the invariant-preservation conjunct of the theorem at the
empty state and a concrete insertion. -/
theorem C2_capacity_invariant_witness :
    InvManager.capacityOk (InvManager.insert_card [] 1001 "CardName" "SetName" 5).1 = true :=
  (C2_capacity_invariant [] (by decide) 1001 "CardName" "SetName" 5).1

/-- C3: at a database holding a single matching record of 7 units, a request
for 10 units does not return a partial-fulfillment result of 7 — the scan
raises ValueError on its first iteration (the loop unpacks the 4-entity join
rows into five variables), contradicting the claim that no error is raised
and the collected amounts sum to the available stock. -/
theorem C3_partial_fulfillment_raises :
    Mtg.find_card_location
      { boxes := [{ id := 1 }], rows := [{ id := 1, box_id := 1 }],
        sections := [{ id := 1, row_id := 1 }],
        cards := [{ id := 1, section_id := 1, tcg_id := 1001, quantity := 7 }] }
      1001 10
      = Except.error (PyError.valueError "not enough values to unpack, expected 5, got 4") := by
  rfl

/-- C5: find_or_create_storage never returns an existing child: with a Row
parent owning one fresh Section child (card_count 0, far below its own
ceiling of 100) it raises TypeError instead of returning that child, because
its availability test compares attributes no storage class defines and its
constructor call passes the nonexistent parent_id keyword; only the
at-the-ceiling clause behaves as claimed and returns none; the sibling
create_storage_object raises AttributeError whenever a child exists. -/
theorem C5_locator_contract_violated :
    Mtg.find_or_create_storage { id := 1 } [{ id := 1, row_id := 1 }]
      = Except.error (PyError.typeError "parent_id is an invalid keyword argument for Section") ∧
    Mtg.find_or_create_storage { id := 1 }
      [{ id := 1, row_id := 1 }, { id := 2, row_id := 1 }, { id := 3, row_id := 1 },
       { id := 4, row_id := 1 }, { id := 5, row_id := 1 }, { id := 6, row_id := 1 },
       { id := 7, row_id := 1 }, { id := 8, row_id := 1 }, { id := 9, row_id := 1 },
       { id := 10, row_id := 1 }] = Except.ok none ∧
    Mtg.create_storage_object { id := 1 } [{ id := 1, row_id := 1 }]
      = Except.error (PyError.attributeError "Section object has no attribute current_quantity") := by
  refine ⟨rfl, ?_, rfl⟩
  rfl

/-- C6: merging additional quantity 5 into an existing record of 10 units
(well under any ceiling) does not increment the record in place — it raises
AttributeError, because update_card_quantity reads the max_quantity
attribute that this variant's Card class does not define. -/
theorem C6_merge_raises :
    InvManager.update_card_quantity
      (InvManager.insert_card [] 1001 "CardName" "SetName" 10).1 1001 5
      = Except.error (PyError.attributeError "Card object has no attribute max_quantity") := by
  rfl

/-- C7, counterexample: with the configured constants (3 boxes per column,
4 columns per shelf, 3 shelves per rack) ordinal 12 maps to rack 1, shelf 2,
column 1, slot 1 — not to rack 2, shelf 1, column 1, slot 1 as the claim
states (the rack advances only every 36 ordinals). -/
theorem C7_address_counterexample :
    Mtg.calculate_box_location 12 = (1, 2, 1, 1) ∧
    Mtg.calculate_box_location 12 ≠ (2, 1, 1, 1) := by
  decide

/-- C7 (amended): calculate_box_location is a pure total function on
non-negative ordinals returning a 1-indexed tuple whose components stay in
their radix ranges (shelf 1-3, column 1-4, slot 1-3) and recombine to the
ordinal, with ordinal 0 mapping to (1, 1, 1, 1), ordinal 12 to
(1, 2, 1, 1), and rack 2 first reached at ordinal 36. -/
theorem C7_amended_radix (n : Nat) :
    Mtg.calculate_box_location 0 = (1, 1, 1, 1) ∧
    Mtg.calculate_box_location 12 = (1, 2, 1, 1) ∧
    Mtg.calculate_box_location 36 = (2, 1, 1, 1) ∧
    1 ≤ (Mtg.calculate_box_location n).1 ∧
    1 ≤ (Mtg.calculate_box_location n).2.1 ∧ (Mtg.calculate_box_location n).2.1 ≤ 3 ∧
    1 ≤ (Mtg.calculate_box_location n).2.2.1 ∧ (Mtg.calculate_box_location n).2.2.1 ≤ 4 ∧
    1 ≤ (Mtg.calculate_box_location n).2.2.2 ∧ (Mtg.calculate_box_location n).2.2.2 ≤ 3 ∧
    ((Mtg.calculate_box_location n).1 - 1) * 36 + ((Mtg.calculate_box_location n).2.1 - 1) * 12
      + ((Mtg.calculate_box_location n).2.2.1 - 1) * 3
      + ((Mtg.calculate_box_location n).2.2.2 - 1) = n := by
  refine ⟨by decide, by decide, by decide, ?_, ?_, ?_, ?_, ?_, ?_, ?_, ?_⟩ <;>
    simp only [Mtg.calculate_box_location] <;> omega

/-- C8: applying a removal list is never the claimed mix of deletions and
decrements: remove_cards raises on any non-empty list (its elements are
dicts, which session.delete cannot map), so in particular a record that
contributed only part of its quantity is never quantity-decremented. -/
theorem C8_removal_raises (db : Mtg.MtgDB) (rem : Mtg.Removal)
    (rems : List Mtg.Removal) :
    Mtg.remove_cards db (rem :: rems)
      = Except.error (PyError.unmappedInstanceError "Class builtins.dict is not mapped") :=
  rfl
